import Mathlib

/-!
Verification of `morf/utils/job_runner_utils.py` (MORF job-execution
orchestrator).  The source file defines three functions:

* `run_image`   — stages a temp directory, fetches the docker image and the
  mode-dependent inputs, loads the image, runs it, removes it, archives the
  output (lines 40–109);
* `run_job`     — dispatches `run_image` by aggregation level (lines 112–139);
* `run_morf_job` — the top-level wrapper: fetch image + controller script,
  cache, notify, run controller, notify (lines 142–176).

The embedding below models each function as an executable Lean function
producing an event trace, a final filesystem/directory state, and an
outcome (`Except`-style for exceptions, an explicit exit for `sys.exit`).
External effects (S3 fetches, subprocess exit statuses, the load command's
stdout, the generated temp-directory name) are inputs supplied by an
environment record, so every behaviour of the Python code corresponds to
some choice of environment.
-/

namespace Morf

/-! ## Python string primitives

The source manipulates Python `str` values (`in`, `split(sep)`, `split()`,
`strip()`, `"{}".format`).  These are embedded as executable functions on
`String` / `List Char` with Python's semantics.
-/

/-- Python's default whitespace set for `str.strip()` / `str.split()`. -/
def isPySpace (c : Char) : Bool :=
  c = ' ' || c = '\t' || c = '\n' || c = '\r' || c = '\x0b' || c = '\x0c'

/-- Boolean infix (substring) test on character lists: does `sub` occur as
a contiguous sublist of `l`? -/
def listIsInfixOf (sub : List Char) : List Char → Bool
  | [] => sub.isEmpty
  | c :: rest => sub.isPrefixOf (c :: rest) || listIsInfixOf sub rest

/-- Python's substring test `sub in s`. -/
def strContains (sub s : String) : Bool :=
  listIsInfixOf sub.toList s.toList

/-- Python's `str.strip()` on a character list: drop leading and trailing
whitespace. -/
def pyStripList (l : List Char) : List Char :=
  ((l.dropWhile isPySpace).reverse.dropWhile isPySpace).reverse

/-- Python's `str.strip()`. -/
def pyStrip (s : String) : String :=
  String.mk (pyStripList s.toList)

/-- Python's `s.split(sep)` for a non-empty separator `s0 :: stail`,
written with explicit fuel so that it is structurally recursive and
kernel-evaluable.  With `fuel ≥ length of the input` the fuel never runs
out; the fuel-exhausted clause is chosen so that the lemmas below hold for
every fuel. -/
def splitOnSubFuel (s0 : Char) (stail : List Char) :
    Nat → List Char → List Char → List (List Char)
  | 0, acc, rest => [acc.reverse ++ rest]
  | _ + 1, acc, [] => [acc.reverse]
  | fuel + 1, acc, c :: rest =>
    if (s0 :: stail).isPrefixOf (c :: rest) then
      acc.reverse :: splitOnSubFuel s0 stail fuel [] (rest.drop stail.length)
    else
      splitOnSubFuel s0 stail fuel (c :: acc) rest

/-- Python's `s.split(sep)` (list of parts, as character lists). -/
def pySplitOnSub (sep s : String) : List (List Char) :=
  match sep.toList with
  | [] => [s.toList]
  | s0 :: stail => splitOnSubFuel s0 stail (s.toList.length + 1) [] s.toList

/-- Python's whitespace split `s.split()` (runs of whitespace separate
tokens, no empty tokens). -/
def splitWsAux : List Char → List Char → List (List Char)
  | acc, [] => if acc.isEmpty then [] else [acc.reverse]
  | acc, c :: rest =>
    if isPySpace c then
      if acc.isEmpty then splitWsAux [] rest
      else acc.reverse :: splitWsAux [] rest
    else splitWsAux (c :: acc) rest

/-- Python's `s.split()`. -/
def pySplitWs (s : String) : List (List Char) :=
  splitWsAux [] s.toList

/-- Python's `l[-1]` with a default for the (impossible) empty case, used
where the source indexes a provably non-empty list. -/
def lastD {α : Type} : List α → α → α
  | [], d => d
  | [a], _ => a
  | _ :: b :: t, d => lastD (b :: t) d

/-- Python's rendering `"{}".format(x)` of an optional string argument:
`None` prints as `"None"`. -/
def pyStr : Option String → String
  | none => "None"
  | some s => s

/-! ## Container identifier extraction (`run_image`, lines 84–88)

```
if "sha256:" in load_output:
    image_uuid = output.stdout.decode("utf-8").split("sha256:")[-1].strip()
else: #image is tagged
    image_uuid = load_output.split()[-1].strip()
```

`none` models the `IndexError` raised by `split()[-1]` on output with no
token. -/
def parse_image_uuid (load_output : String) : Option String :=
  if strContains "sha256:" load_output then
    some (String.mk (pyStripList (lastD (pySplitOnSub "sha256:" load_output) [])))
  else
    match pySplitWs load_output with
    | [] => none
    | p :: ps => some (String.mk (pyStripList (lastD (p :: ps) [])))

/-- Modelled from the spec: the claim-side characterisation "the text after
the `sha256:` marker" — the suffix after the last (left-to-right,
non-overlapping) occurrence of the marker, computed by a direct scan that
keeps the best suffix seen so far.  Fuel as in `splitOnSubFuel`. -/
def afterLastScanFuel (s0 : Char) (stail : List Char) :
    Nat → List Char → List Char → List Char
  | 0, best, _ => best
  | _ + 1, best, [] => best
  | fuel + 1, best, c :: rest =>
    if (s0 :: stail).isPrefixOf (c :: rest) then
      afterLastScanFuel s0 stail fuel (rest.drop stail.length) (rest.drop stail.length)
    else
      afterLastScanFuel s0 stail fuel best rest

/-- Modelled from the spec: text after the last occurrence of `marker` in
`s` (the whole of `s` when there is no occurrence). -/
def textAfterLastMarker (marker s : String) : String :=
  match marker.toList with
  | [] => s
  | m0 :: mtail =>
    String.mk (afterLastScanFuel m0 mtail (s.toList.length + 1) s.toList s.toList)

theorem lastD_cons_of_ne_nil {α : Type} (x : α) (l : List α) (d : α)
    (h : l ≠ []) : lastD (x :: l) d = lastD l d := by
  cases l with
  | nil => exact absurd rfl h
  | cons b t => rfl

theorem splitOnSubFuel_ne_nil (s0 : Char) (stail : List Char) :
    ∀ fuel acc s, splitOnSubFuel s0 stail fuel acc s ≠ [] := by
  intro fuel
  induction fuel with
  | zero => intro acc s; simp [splitOnSubFuel]
  | succ n ih =>
    intro acc s
    cases s with
    | nil => simp [splitOnSubFuel]
    | cons c r =>
      simp only [splitOnSubFuel]
      by_cases h : (s0 :: stail).isPrefixOf (c :: r) = true
      · rw [if_pos h]
        simp
      · rw [if_neg h]
        exact ih _ _

theorem lastD_splitOnSubFuel (s0 : Char) (stail : List Char) :
    ∀ fuel acc s, lastD (splitOnSubFuel s0 stail fuel acc s) [] =
      afterLastScanFuel s0 stail fuel (acc.reverse ++ s) s := by
  intro fuel
  induction fuel with
  | zero => intro acc s; simp [splitOnSubFuel, afterLastScanFuel, lastD]
  | succ n ih =>
    intro acc s
    cases s with
    | nil => simp [splitOnSubFuel, afterLastScanFuel, lastD]
    | cons c r =>
      simp only [splitOnSubFuel, afterLastScanFuel]
      by_cases h : (s0 :: stail).isPrefixOf (c :: r) = true
      · rw [if_pos h, if_pos h]
        rw [lastD_cons_of_ne_nil _ _ _ (splitOnSubFuel_ne_nil _ _ _ _ _)]
        have h2 := ih [] (r.drop stail.length)
        simpa using h2
      · rw [if_neg h, if_neg h]
        have h2 := ih (c :: acc) r
        rw [h2]
        congr 1
        simp

theorem lastD_eq_getLast {α : Type} :
    ∀ (l : List α) (d : α), l ≠ [] → some (lastD l d) = l.getLast? := by
  intro l
  induction l with
  | nil => intro d h; exact absurd rfl h
  | cons a t ih =>
    intro d _
    cases t with
    | nil => rfl
    | cons b u =>
      rw [lastD_cons_of_ne_nil _ _ _ (by simp), List.getLast?_cons_cons]
      exact ih d (by simp)

/-- C4: container identifier extraction.  If the load output contains the
substring `"sha256:"`, the resolved handle is the text after the marker
with surrounding whitespace stripped; otherwise it is the last
whitespace-delimited token of the output; the two examples from the claim
evaluate as stated. -/
theorem parse_image_uuid_spec :
    (∀ s : String, strContains "sha256:" s = true →
      parse_image_uuid s = some (pyStrip (textAfterLastMarker "sha256:" s))) ∧
    (∀ s : String, strContains "sha256:" s = false →
      parse_image_uuid s =
        ((pySplitWs s).getLast?).map (fun tok => String.mk (pyStripList tok))) ∧
    parse_image_uuid "Loaded image ID: sha256:abc123\n" = some "abc123" ∧
    parse_image_uuid "Loaded image: myimage:latest\n" = some "myimage:latest" := by
  refine ⟨?_, ?_, by decide, by decide⟩
  · intro s hs
    have hsep : "sha256:".toList = ['s', 'h', 'a', '2', '5', '6', ':'] := rfl
    simp only [parse_image_uuid, hs, if_true, pySplitOnSub, textAfterLastMarker,
      pyStrip, hsep]
    have h2 := lastD_splitOnSubFuel 's' ['h', 'a', '2', '5', '6', ':']
      (s.toList.length + 1) [] s.toList
    simp only [List.reverse_nil, List.nil_append] at h2
    rw [h2]
    rfl
  · intro s hs
    simp only [parse_image_uuid, hs, if_false]
    cases hsplit : pySplitWs s with
    | nil => rfl
    | cons p ps =>
      rw [← lastD_eq_getLast (p :: ps) [] (by simp)]
      rfl

/-- Witness for `parse_image_uuid_spec`: both hypothesised clauses applied
at concrete load outputs. -/
theorem parse_image_uuid_spec_witness :
    parse_image_uuid "x sha256:ff00\n" = some (pyStrip (textAfterLastMarker "sha256:" "x sha256:ff00\n")) ∧
    parse_image_uuid "tagged image\n" =
      ((pySplitWs "tagged image\n").getLast?).map (fun tok => String.mk (pyStripList tok)) :=
  ⟨parse_image_uuid_spec.1 "x sha256:ff00\n" (by decide),
   parse_image_uuid_spec.2.1 "tagged image\n" (by decide)⟩

/-! ## Data model -/

/-- The fields of `MorfJobConfig` read by `job_runner_utils.py`
(`docker_url`, `mode`, `docker_exec`, `local_working_directory`,
`client_args`, `controller_url`, `raw_data_buckets`, identifiers).
`client_args` is an ordered mapping rendered in iteration order. -/
structure JobConfig where
  docker_url : String
  mode : String
  docker_exec : String
  local_working_directory : String
  client_args : List (String × String)
  controller_url : String
  raw_data_buckets : List String
  user_id : String
  job_id : String
  morf_id : String
deriving DecidableEq

/-- Python exceptions that can escape the modelled steps. -/
inductive PyErr where
  | keyError (field : String)
  | ioError
  | indexError
deriving DecidableEq

/-- External behaviour consumed by one `run_image` invocation: the
generated temp-directory name, whether each helper step raises, and the
exit statuses / stdout of the three subprocess invocations.  Every
execution of the Python function corresponds to one choice of this
record. -/
structure ImageEnv where
  tmpName : String
  fetchImageFails : Bool
  stageRaises : Bool
  rawRaises : Bool
  ttRaises : Bool
  modelsRaises : Bool
  loadExit : Int
  loadOutput : String
  runExit : Int
  rmiExit : Int
  archiveRaises : Bool
  moveRaises : Bool
deriving DecidableEq

/-- Observable events of one `run_image` invocation, in program order.
`procLoad` / `procRun` / `procRmi` carry the exact shell command string the
source builds and the subprocess exit status. -/
inductive IEvent where
  | fetchFile (url : String)
  | fetchErrorPrinted
  | initDirs
  | initRawData
  | initTrainTest
  | downloadModels
  | procLoad (cmd : String) (exit : Int)
  | procRun (cmd : String) (exit : Int)
  | procRmi (cmd : String) (exit : Int)
  | archived
  | movedResults
deriving DecidableEq

def isRunEvent : IEvent → Bool
  | IEvent.procRun _ _ => true
  | _ => false

def isRmiEvent : IEvent → Bool
  | IEvent.procRmi _ _ => true
  | _ => false

def cmdOfEvent : IEvent → String
  | IEvent.procLoad c _ => c
  | IEvent.procRun c _ => c
  | IEvent.procRmi c _ => c
  | _ => ""

/-! ## Filesystem abstraction

The filesystem is the list of existing paths.  `rmtree` models
`shutil.rmtree` as performed by `tempfile.TemporaryDirectory.__exit__`:
the directory and everything below it disappear. -/

/-- Is path `p` the directory `root` itself or located below it? -/
def underDir (root p : String) : Bool :=
  p = root || (root ++ "/").toList.isPrefixOf p.toList

/-- Recursive removal of `root` and all of its contents. -/
def rmtree (root : String) (fs : List String) : List String :=
  fs.filter (fun p => !(underDir root p))

/-! ## `run_image` (source lines 40–109) -/

/-- The docker run command built at lines 91–95; the source duplicates the
whole format string in the two branches of the `extract-holdout` test, and
so does this definition. -/
def build_run_command (docker_exec input_dir output_dir image_uuid
    courseStr sessionStr mode : String) : String :=
  if mode = "extract-holdout" then
    docker_exec ++ " run --network=\"none\" --rm=true --volume=" ++ input_dir ++
      ":/input --volume=" ++ output_dir ++ ":/output " ++ image_uuid ++
      " --course " ++ courseStr ++ " --session " ++ sessionStr ++
      " --mode " ++ "extract"
  else
    docker_exec ++ " run --network=\"none\" --rm=true --volume=" ++ input_dir ++
      ":/input --volume=" ++ output_dir ++ ":/output " ++ image_uuid ++
      " --course " ++ courseStr ++ " --session " ++ sessionStr ++
      " --mode " ++ mode

/-- Modelled from the spec: the mode-translation rule ("if the
orchestrator's mode is `extract-holdout`, the value passed via `--mode` is
`extract`; all other modes pass through unchanged"), stated as its own
function so that `build_run_command` can be compared against it. -/
def container_mode_value (mode : String) : String :=
  if mode = "extract-holdout" then "extract" else mode

/-- Modelled from the spec: the invariant part of the run command up to and
including the image handle, shared by both branches of lines 91–95. -/
def run_command_head (docker_exec input_dir output_dir image_uuid : String) : String :=
  docker_exec ++ " run --network=\"none\" --rm=true --volume=" ++ input_dir ++
    ":/input --volume=" ++ output_dir ++ ":/output " ++ image_uuid

/-- The `--{argname} {argval}` suffix appended for each entry of
`job_config.client_args` (lines 97–99). -/
def clientArgsSuffix (args : List (String × String)) : String :=
  args.foldl (fun acc kv => acc ++ " --" ++ kv.1 ++ " " ++ kv.2) ""

/-- Body of the `with tempfile.TemporaryDirectory(...)` block of
`run_image` (lines 61–108): fetch the image archive (failure caught and
printed), create `input`/`output`, fetch mode-dependent inputs, load the
image and parse its identifier, run it, remove it, archive and upload the
output.  Each statement that can raise short-circuits the rest of the
body, carrying along the event trace accumulated so far (Python statement
sequencing).  Helper calls (`fetch_file`, `initialize_input_output_dirs`,
`initialize_raw_course_data`, `initialize_train_test_data`,
`download_models`, `make_output_archive_file`,
`move_results_to_destination`) live outside `src/` and are modelled from
the spec as steps that either succeed or raise, as directed by `env`. -/
def run_image_body (cfg : JobConfig) (env : ImageEnv)
    (course session : Option String) (wd : String) (dirs : List String) :
    List IEvent × List String × Except PyErr Unit :=
  let input_dir := wd ++ "/input"
  let output_dir := wd ++ "/output"
  let dirs2 := output_dir :: input_dir :: dirs
  let ev1 := IEvent.fetchFile cfg.docker_url ::
    (if env.fetchImageFails then [IEvent.fetchErrorPrinted] else []) ++
    [IEvent.initDirs]
  if env.stageRaises then (ev1, dirs2, Except.error PyErr.ioError) else
  let ev2 := ev1 ++
    (if strContains "extract" cfg.mode then [IEvent.initRawData] else [])
  if strContains "extract" cfg.mode && env.rawRaises then
    (ev2, dirs2, Except.error PyErr.ioError) else
  let ev3 := ev2 ++
    (if cfg.mode = "train" ∨ cfg.mode = "test" then [IEvent.initTrainTest]
     else [])
  if (cfg.mode = "train" ∨ cfg.mode = "test") ∧ env.ttRaises = true then
    (ev3, dirs2, Except.error PyErr.ioError) else
  let ev4 := ev3 ++
    (if cfg.mode = "test" then [IEvent.downloadModels] else [])
  if cfg.mode = "test" ∧ env.modelsRaises = true then
    (ev4, dirs2, Except.error PyErr.ioError) else
  let ev5 := ev4 ++
    [IEvent.procLoad (cfg.docker_exec ++ " load -i " ++ wd ++ "/docker_image;")
      env.loadExit]
  match parse_image_uuid env.loadOutput with
  | none => (ev5, dirs2, Except.error PyErr.indexError)
  | some uuid =>
    let ev6 := ev5 ++
      [IEvent.procRun
          (build_run_command cfg.docker_exec input_dir output_dir uuid
            (pyStr course) (pyStr session) cfg.mode ++
            clientArgsSuffix cfg.client_args) env.runExit,
        IEvent.procRmi (cfg.docker_exec ++ " rmi --force " ++ uuid)
          env.rmiExit,
        IEvent.archived]
    if env.archiveRaises then (ev6, dirs2, Except.error PyErr.ioError) else
    let ev7 := ev6 ++ [IEvent.movedResults]
    if env.moveRaises then (ev7, dirs2, Except.error PyErr.ioError) else
    (ev7, dirs2, Except.ok ())

/-- `run_image` (lines 40–109): the `with tempfile.TemporaryDirectory`
statement creates the staging root under
`job_config.local_working_directory`, runs the body, and removes the
directory tree on every exit path, re-raising any body exception.
`level` and `label_type` are threaded to the (spec-modelled) fetch helpers
and do not otherwise influence the control flow, exactly as in the
source. -/
def run_image (cfg : JobConfig) (env : ImageEnv)
    (course session _level _label_type : Option String) (dirs : List String) :
    List IEvent × List String × Except PyErr Unit :=
  let wd := cfg.local_working_directory ++ "/" ++ env.tmpName
  let s := run_image_body cfg env course session wd (wd :: dirs)
  (s.1, rmtree wd s.2.1, s.2.2)

/-! ## `run_job` (source lines 112–139) -/

/-- One dispatched `run_image` invocation, recorded by keyword argument. -/
structure RunImageCall where
  course : Option String
  session : Option String
  level : Option String
  label_type : Option String
deriving DecidableEq

/-- `run_job` (lines 112–139): after defaulting `raw_data_buckets` and a
log line, it dispatches on `level`.  `level="all"` passes neither course
nor session to `run_image`; `level="course"` passes course only;
`level="session"` passes both; any other level matches none of the
`if`/`elif` branches, so nothing runs and the function returns `None`. -/
def run_job (_cfg : JobConfig) (course session : Option String) (level : String)
    (label_type : Option String) :
    List RunImageCall × Except PyErr (Option Unit) :=
  if level = "all" then
    ([{ course := none, session := none, level := some level,
        label_type := label_type }], Except.ok none)
  else if level = "course" then
    ([{ course := course, session := none, level := some level,
        label_type := label_type }], Except.ok none)
  else if level = "session" then
    ([{ course := course, session := session, level := some level,
        label_type := label_type }], Except.ok none)
  else
    ([], Except.ok none)

/-! ## `run_morf_job` (source lines 142–176) -/

/-- Observable events of one `run_morf_job` invocation, in program
order. -/
inductive MEvent where
  | chdir (path : String)
  | fetchFile (url : String)
  | cacheFile (filename : String)
  | logMissingField (field : String)
  | updateStatus (status : String)
  | emailAlert
  | callController (exit : Int)
  | successEmail
deriving DecidableEq

/-- How a `run_morf_job` invocation ends: an ordinary return, or process
termination through `sys.exit(code)`. -/
inductive MOutcome where
  | returned
  | exited (code : Int)
deriving DecidableEq

/-- External behaviour consumed by one `run_morf_job` invocation: the
generated temp-directory name, the missing-configuration-field `KeyError`
(if any) raised by each of the two `fetch_file` calls, and the controller
subprocess exit status. -/
structure MorfEnv where
  tmpName : String
  fetchDockerMissing : Option String
  fetchControllerMissing : Option String
  controllerExit : Int
deriving DecidableEq

/-- Process state touched by `run_morf_job`: the process-wide current
working directory and the set of existing directories. -/
structure MState where
  cwd : String
  dirs : List String
deriving DecidableEq

def isFetchEvent : MEvent → Bool
  | MEvent.fetchFile _ => true
  | _ => false

def isStatusEvent (status : String) : MEvent → Bool
  | MEvent.updateStatus s => s = status
  | _ => false

/-- `run_morf_job` (lines 142–176): create a temp directory under
`local_working_directory`, `os.chdir` into it, fetch the docker image and
controller script (caching both unless `no_cache`), on `KeyError` log the
missing field and `sys.exit(-1)`; otherwise set status INITIALIZED, send
the initialization alert, run the controller script, set status SUCCESS
and send the success email.  The `with` block removes the temp directory
on every exit path; the working directory is never restored. -/
def run_morf_job (cfg : JobConfig) (no_cache : Bool) (env : MorfEnv)
    (st : MState) : List MEvent × MState × MOutcome :=
  let wd := cfg.local_working_directory ++ "/" ++ env.tmpName
  let body : List MEvent × MOutcome :=
    match env.fetchDockerMissing with
    | some f =>
      ([MEvent.fetchFile cfg.docker_url, MEvent.logMissingField f],
        MOutcome.exited (-1))
    | none =>
      match env.fetchControllerMissing with
      | some f =>
        ([MEvent.fetchFile cfg.docker_url, MEvent.fetchFile cfg.controller_url,
          MEvent.logMissingField f], MOutcome.exited (-1))
      | none =>
        ([MEvent.fetchFile cfg.docker_url, MEvent.fetchFile cfg.controller_url] ++
          (if no_cache then []
           else [MEvent.cacheFile "docker_image", MEvent.cacheFile "controller.py"]) ++
          [MEvent.updateStatus "INITIALIZED", MEvent.emailAlert,
           MEvent.callController env.controllerExit, MEvent.updateStatus "SUCCESS",
           MEvent.successEmail], MOutcome.returned)
  (MEvent.chdir wd :: body.1,
    { cwd := wd, dirs := rmtree wd (wd :: st.dirs) }, body.2)

/-! ## Concrete scenarios used by witnesses and counterexamples -/

/-- A representative job configuration. -/
def cfg0 : JobConfig :=
  { docker_url := "s3://bucket/image.tar"
    mode := "extract"
    docker_exec := "docker"
    local_working_directory := "/tmp/morf"
    client_args := []
    controller_url := "s3://bucket/controller.py"
    raw_data_buckets := ["raw-bucket"]
    user_id := "user1"
    job_id := "job1"
    morf_id := "morf1" }

/-- A fully successful `run_image` environment. -/
def env0 : ImageEnv :=
  { tmpName := "stage01"
    fetchImageFails := false
    stageRaises := false
    rawRaises := false
    ttRaises := false
    modelsRaises := false
    loadExit := 0
    loadOutput := "Loaded image ID: sha256:abc123\n"
    runExit := 0
    rmiExit := 0
    archiveRaises := false
    moveRaises := false }

/-- Like `env0`, but the load subprocess exits with status 1. -/
def env8 : ImageEnv := { env0 with loadExit := 1 }

/-- Like `env0`, but the load subprocess produces empty output. -/
def env8b : ImageEnv := { env0 with loadOutput := "" }

/-- A successful `run_morf_job` environment. -/
def menv0 : MorfEnv :=
  { tmpName := "work01"
    fetchDockerMissing := none
    fetchControllerMissing := none
    controllerExit := 0 }

/-- A starting process state. -/
def mstate0 : MState := { cwd := "/home/morf", dirs := ["/home/morf"] }

/-! ## Claims -/

/-- C1: for every invocation of `run_image` — whatever the environment
makes each step do, completing or raising — no path at or below the
staging root created under `job_config.local_working_directory` exists in
the filesystem after `run_image` returns or propagates its exception. -/
theorem run_image_staging_dir_removed (cfg : JobConfig) (env : ImageEnv)
    (course session level label_type : Option String) (dirs : List String)
    (p : String)
    (hp : underDir (cfg.local_working_directory ++ "/" ++ env.tmpName) p = true) :
    p ∉ (run_image cfg env course session level label_type dirs).2.1 := by
  intro hmem
  simp only [run_image, rmtree, List.mem_filter] at hmem
  rw [hp] at hmem
  simp at hmem

/-- Witness for `run_image_staging_dir_removed`: the staging root's
`input` subdirectory is gone after a concrete successful run. -/
theorem run_image_staging_dir_removed_witness :
    underDir (cfg0.local_working_directory ++ "/" ++ env0.tmpName)
      "/tmp/morf/stage01/input" = true ∧
    "/tmp/morf/stage01/input" ∉
      (run_image cfg0 env0 (some "CS101") (some "001") (some "session") none
        []).2.1 :=
  ⟨by decide,
   run_image_staging_dir_removed cfg0 env0 (some "CS101") (some "001")
     (some "session") none [] "/tmp/morf/stage01/input" (by decide)⟩

/-- C3: the value interpolated into the `--mode` slot of the docker run
command is "extract" when the job mode is "extract-holdout" and the mode
itself otherwise; `build_run_command` (the duplicated format strings of lines
91–95) equals the single-format spec-side command with that translated
mode value. -/
theorem run_image_mode_translation :
    (∀ de i o u c s m, build_run_command de i o u c s m =
      run_command_head de i o u ++ " --course " ++ c ++ " --session " ++ s ++
        " --mode " ++ container_mode_value m) ∧
    container_mode_value "extract-holdout" = "extract" ∧
    (∀ m, m ≠ "extract-holdout" → container_mode_value m = m) := by
  refine ⟨?_, by decide, ?_⟩
  · intro de i o u c s m
    by_cases hm : m = "extract-holdout"
    · simp [build_run_command, run_command_head, container_mode_value, hm]
    · simp [build_run_command, run_command_head, container_mode_value, hm]
  · intro m hm
    simp [container_mode_value, hm]

/-- Witness for `run_image_mode_translation`: the translated clause at
mode "extract-holdout" and the pass-through clause at mode "train". -/
theorem run_image_mode_translation_witness :
    (build_run_command "docker" "/i" "/o" "u1" "CS101" "001" "extract-holdout" =
      run_command_head "docker" "/i" "/o" "u1" ++ " --course " ++ "CS101" ++
        " --session " ++ "001" ++ " --mode " ++
        container_mode_value "extract-holdout") ∧
    ("train" : String) ≠ "extract-holdout" ∧
    container_mode_value "train" = "train" :=
  ⟨run_image_mode_translation.1 "docker" "/i" "/o" "u1" "CS101" "001"
      "extract-holdout",
   by decide,
   run_image_mode_translation.2.2 "train" (by decide)⟩

/-- C9: for every level other than "all", "course" or "session", `run_job`
invokes `run_image` zero times and returns `None` without raising. -/
theorem run_job_unrecognized_level_noop (cfg : JobConfig)
    (course session label_type : Option String) (level : String)
    (h1 : level ≠ "all") (h2 : level ≠ "course") (h3 : level ≠ "session") :
    run_job cfg course session level label_type = ([], Except.ok none) := by
  simp [run_job, h1, h2, h3]

/-- Witness for `run_job_unrecognized_level_noop` at the unrecognized
level "holdout". -/
theorem run_job_unrecognized_level_noop_witness :
    ("holdout" : String) ≠ "all" ∧ ("holdout" : String) ≠ "course" ∧
    ("holdout" : String) ≠ "session" ∧
    run_job cfg0 (some "CS101") (some "001") "holdout" none =
      ([], Except.ok none) :=
  ⟨by decide, by decide, by decide,
   run_job_unrecognized_level_noop cfg0 (some "CS101") (some "001") none
     "holdout" (by decide) (by decide) (by decide)⟩

/-- C10: every invocation of `run_morf_job` issues `os.chdir` into the
newly created temp directory, never restores the caller's working
directory — the final current working directory is the temp directory
path — and that directory has been deleted by the time the function
returns. -/
theorem run_morf_job_cwd_left_in_deleted_tempdir (cfg : JobConfig)
    (nc : Bool) (env : MorfEnv) (st : MState) :
    (MEvent.chdir (cfg.local_working_directory ++ "/" ++ env.tmpName) ∈
      (run_morf_job cfg nc env st).1) ∧
    ((run_morf_job cfg nc env st).2.1.cwd =
      cfg.local_working_directory ++ "/" ++ env.tmpName) ∧
    ((cfg.local_working_directory ++ "/" ++ env.tmpName) ∉
      (run_morf_job cfg nc env st).2.1.dirs) := by
  refine ⟨?_, rfl, ?_⟩
  · simp [run_morf_job]
  · intro hmem
    simp only [run_morf_job, rmtree, List.mem_filter] at hmem
    simp [underDir] at hmem

deriving instance DecidableEq for Except

set_option maxHeartbeats 1600000

/-- C2: whenever `run_image` reaches the container run step (no staging or
fetch helper raised and the load output parsed to an identifier), exactly
one image-removal command `<docker_exec> rmi --force <image_uuid>` is
issued, it targets the loaded image, and no removal was issued before the
run command — for every run exit status `env.runExit`. -/
theorem run_image_rmi_exactly_once_after_run (cfg : JobConfig)
    (env : ImageEnv) (course session level label_type : Option String)
    (dirs : List String) (uuid : String)
    (h1 : env.stageRaises = false)
    (h2 : strContains "extract" cfg.mode = true → env.rawRaises = false)
    (h3 : cfg.mode = "train" ∨ cfg.mode = "test" → env.ttRaises = false)
    (h4 : cfg.mode = "test" → env.modelsRaises = false)
    (h5 : parse_image_uuid env.loadOutput = some uuid) :
    ((run_image cfg env course session level label_type dirs).1.any
        isRunEvent = true) ∧
    ((run_image cfg env course session level label_type dirs).1.filter
        isRmiEvent =
      [IEvent.procRmi (cfg.docker_exec ++ " rmi --force " ++ uuid)
        env.rmiExit]) ∧
    (((run_image cfg env course session level label_type dirs).1.takeWhile
        (fun e => !(isRunEvent e))).filter isRmiEvent = []) := by
  by_cases hx : strContains "extract" cfg.mode = true <;>
    by_cases htt : cfg.mode = "train" ∨ cfg.mode = "test" <;>
    by_cases hts : cfg.mode = "test" <;>
    by_cases hfi : env.fetchImageFails = true <;>
    by_cases har : env.archiveRaises = true <;>
    by_cases hmv : env.moveRaises = true <;>
    simp_all [run_image, run_image_body, isRunEvent, isRmiEvent,
      List.filter_cons, List.takeWhile_cons]

/-- Witness for `run_image_rmi_exactly_once_after_run` on a concrete
successful extract-mode run. -/
theorem run_image_rmi_exactly_once_after_run_witness :
    parse_image_uuid env0.loadOutput = some "abc123" ∧
    ((run_image cfg0 env0 (some "CS101") (some "001") (some "session") none
        []).1.filter isRmiEvent =
      [IEvent.procRmi (cfg0.docker_exec ++ " rmi --force " ++ "abc123")
        env0.rmiExit]) :=
  ⟨by decide,
   (run_image_rmi_exactly_once_after_run cfg0 env0 (some "CS101")
      (some "001") (some "session") none [] "abc123" (by decide) (by decide)
      (by decide) (by decide) (by decide)).2.1⟩

/-- C8 counterexample: a load subprocess that exits with non-zero status
but parsable output does not make `run_image` fail — no exception is
raised and the run step is still reached, refuting "fails … whenever the
executor's load process exits with a non-zero status". -/
theorem run_image_nonzero_load_exit_not_fatal :
    env8.loadExit ≠ 0 ∧
    (run_image cfg0 env8 (some "CS101") (some "001") (some "session") none
      []).2.2 = Except.ok () ∧
    (run_image cfg0 env8 (some "CS101") (some "001") (some "session") none
      []).1.any isRunEvent = true := by
  decide

/-- C8 amended: the load step's exit status is ignored; the load step is
fatal exactly when the load output cannot be parsed into an identifier
(no `sha256:` marker and no whitespace token), in which case the
exception propagates and the run, image-removal and archive steps are
never reached. -/
theorem run_image_unparsable_load_output_fatal (cfg : JobConfig)
    (env : ImageEnv) (course session level label_type : Option String)
    (dirs : List String)
    (h1 : env.stageRaises = false)
    (h2 : strContains "extract" cfg.mode = true → env.rawRaises = false)
    (h3 : cfg.mode = "train" ∨ cfg.mode = "test" → env.ttRaises = false)
    (h4 : cfg.mode = "test" → env.modelsRaises = false)
    (h5 : parse_image_uuid env.loadOutput = none) :
    ((run_image cfg env course session level label_type dirs).2.2 =
      Except.error PyErr.indexError) ∧
    ((run_image cfg env course session level label_type dirs).1.any
        isRunEvent = false) ∧
    ((run_image cfg env course session level label_type dirs).1.any
        isRmiEvent = false) ∧
    (IEvent.archived ∉
      (run_image cfg env course session level label_type dirs).1) ∧
    (IEvent.movedResults ∉
      (run_image cfg env course session level label_type dirs).1) := by
  by_cases hx : strContains "extract" cfg.mode = true <;>
    by_cases htt : cfg.mode = "train" ∨ cfg.mode = "test" <;>
    by_cases hts : cfg.mode = "test" <;>
    by_cases hfi : env.fetchImageFails = true <;>
    simp_all [run_image, run_image_body, isRunEvent, isRmiEvent]

/-- Witness for `run_image_unparsable_load_output_fatal` at empty load
output. -/
theorem run_image_unparsable_load_output_fatal_witness :
    parse_image_uuid env8b.loadOutput = none ∧
    (run_image cfg0 env8b (some "CS101") (some "001") (some "session") none
      []).2.2 = Except.error PyErr.indexError :=
  ⟨by decide,
   (run_image_unparsable_load_output_fatal cfg0 env8b (some "CS101")
      (some "001") (some "session") none [] (by decide) (by decide)
      (by decide) (by decide) (by decide)).1⟩

/-- C5 counterexample: `run_job` at level "course" dispatches `run_image`
with `session=None`, and the container invocation built for that call
still contains a `--session` flag (rendered as `--session None`), so
"session is absent from the container invocation" is false as stated. -/
theorem run_image_session_flag_present_counterexample :
    ((run_job cfg0 (some "CS101") (some "001") "course" none).1 =
      [{ course := some "CS101", session := none, level := some "course",
         label_type := none }]) ∧
    ¬ (∀ e ∈ (run_image cfg0 env0 (some "CS101") none (some "course") none
          []).1,
        isRunEvent e = true → strContains "--session" (cmdOfEvent e) = false) := by
  refine ⟨by decide, ?_⟩
  decide

/-- C5 amended: the container invocation built by `run_image` always
contains both the `--course` and `--session` flags; the values are the
Python renderings of the dispatched arguments, so at level "all" both are
the string "None", at level "course" the session value is "None", and at
level "session" both real values appear. -/
theorem run_cmd_course_session_flags_always_present :
    (∀ de i o u m (c s : Option String),
      build_run_command de i o u (pyStr c) (pyStr s) m =
        run_command_head de i o u ++ " --course " ++ pyStr c ++ " --session " ++
          pyStr s ++ " --mode " ++ container_mode_value m) ∧
    pyStr (none : Option String) = "None" ∧
    (∀ cfg (c s lt : Option String), (run_job cfg c s "all" lt).1 =
      [{ course := none, session := none, level := some "all",
         label_type := lt }]) ∧
    (∀ cfg (c s lt : Option String), (run_job cfg c s "course" lt).1 =
      [{ course := c, session := none, level := some "course",
         label_type := lt }]) ∧
    (∀ cfg (c s lt : Option String), (run_job cfg c s "session" lt).1 =
      [{ course := c, session := s, level := some "session",
         label_type := lt }]) := by
  refine ⟨?_, rfl, ?_, ?_, ?_⟩
  · intro de i o u m c s
    by_cases hm : m = "extract-holdout"
    · simp [build_run_command, run_command_head, container_mode_value, hm]
    · simp [build_run_command, run_command_head, container_mode_value, hm]
  · intro cfg c s lt; rfl
  · intro cfg c s lt; rfl
  · intro cfg c s lt; rfl

/-- C6 counterexample: in a successful `run_morf_job` run, fetch events
and an INITIALIZED status update both occur, but no INITIALIZED update
precedes the first fetch — the code fetches the image and controller
script before setting the INITIALIZED status and sending the
initialization alert. -/
theorem run_morf_job_fetch_before_initialized_counterexample :
    ((run_morf_job cfg0 false menv0 mstate0).1.any isFetchEvent = true) ∧
    ((run_morf_job cfg0 false menv0 mstate0).1.any
      (isStatusEvent "INITIALIZED") = true) ∧
    (((run_morf_job cfg0 false menv0 mstate0).1.takeWhile
        (fun e => !(isFetchEvent e))).any (isStatusEvent "INITIALIZED") =
      false) := by
  decide

/-- C6 amended: on the success path `run_morf_job` performs, in order:
chdir into the temp directory, fetch the container image archive, fetch
the controller script, cache both (unless `no_cache`), set status
INITIALIZED, send the initialization alert, run the controller, set
status SUCCESS, send the success alert — the artifact fetches precede the
INITIALIZED status update and alert. -/
theorem run_morf_job_event_order (cfg : JobConfig) (nc : Bool)
    (env : MorfEnv) (st : MState)
    (h1 : env.fetchDockerMissing = none)
    (h2 : env.fetchControllerMissing = none) :
    ((run_morf_job cfg nc env st).1 =
      MEvent.chdir (cfg.local_working_directory ++ "/" ++ env.tmpName) ::
        ([MEvent.fetchFile cfg.docker_url, MEvent.fetchFile cfg.controller_url] ++
          (if nc then []
           else [MEvent.cacheFile "docker_image",
                 MEvent.cacheFile "controller.py"]) ++
          [MEvent.updateStatus "INITIALIZED", MEvent.emailAlert,
           MEvent.callController env.controllerExit,
           MEvent.updateStatus "SUCCESS", MEvent.successEmail])) ∧
    ((run_morf_job cfg nc env st).2.2 = MOutcome.returned) := by
  constructor <;> simp [run_morf_job, h1, h2]

/-- Witness for `run_morf_job_event_order` on a concrete successful
run. -/
theorem run_morf_job_event_order_witness :
    menv0.fetchDockerMissing = none ∧
    (run_morf_job cfg0 false menv0 mstate0).2.2 = MOutcome.returned :=
  ⟨by decide,
   (run_morf_job_event_order cfg0 false menv0 mstate0 (by decide)
      (by decide)).2⟩

/-- C7: when a required configuration field is missing during either
top-level fetch, `run_morf_job` terminates the process with exit code -1
(non-zero), and the last event before termination logs the missing field
name. -/
theorem run_morf_job_missing_field_exits_nonzero (cfg : JobConfig)
    (nc : Bool) (env : MorfEnv) (st : MState) (f : String)
    (h : env.fetchDockerMissing = some f ∨
      (env.fetchDockerMissing = none ∧ env.fetchControllerMissing = some f)) :
    ((run_morf_job cfg nc env st).2.2 = MOutcome.exited (-1)) ∧
    ((-1 : Int) ≠ 0) ∧
    ((run_morf_job cfg nc env st).1.getLast? =
      some (MEvent.logMissingField f)) := by
  rcases h with h | ⟨ha, hb⟩
  · refine ⟨?_, by decide, ?_⟩ <;> simp [run_morf_job, h]
  · refine ⟨?_, by decide, ?_⟩ <;> simp [run_morf_job, ha, hb]

/-- Witness for `run_morf_job_missing_field_exits_nonzero` with the
`docker_url` field missing. -/
theorem run_morf_job_missing_field_exits_nonzero_witness :
    (run_morf_job cfg0 false
      { menv0 with fetchDockerMissing := some "docker_url" } mstate0).2.2 =
      MOutcome.exited (-1) :=
  (run_morf_job_missing_field_exits_nonzero cfg0 false
    { menv0 with fetchDockerMissing := some "docker_url" } mstate0
    "docker_url" (Or.inl (by decide))).1

end Morf
